import Mathlib

/-!
Verification of the vic-ui in-guest tether agent against its specification.

The development shallowly embeds the three source files:
  * `src/unnamed/part_001` — the direct-mode tether (`main`, `childReaper`,
    `privateKey`, `id`, device bootstrap over `/.tether/ttyS0`);
  * `src/bootstrap/targets/proxy/tether/tether.go` — the console-driven proxy
    tether (`main`, `handleConnectionFromGuest`, the DOS console bootstrap);
  * `src/unnamed/part_000` — the guest-info CLI (out of scope for the claims).

Side-effecting Go code is embedded as trace-producing functions: each embedded
function consumes an environment describing the outcomes of its external calls
(file reads, `Mknod`, `Wait4`, dial, handshake, console commands) and produces
the ordered list of observable events the Go code would perform.
-/

namespace VicTether

/-! ## Process reaper (src/unnamed/part_001, `childReaper`, lines 86-124)

`childPidTable` maps a child pid to its delivery channel
(`chan syscall.WaitStatus`, buffer 1).  We name channels by a `Nat` queue id:
`table` is the pid → queue-id association and `queues` holds each queue's
delivered statuses.  One `Wait4(-1, WNOHANG)` call yields a `WaitResult`. -/

/-- Outcome of one `syscall.Wait4(-1, &status, WNOHANG, nil)` call. -/
inductive WaitResult where
  /-- `err == nil` and `pid != 0`: a child was reaped with the given status. -/
  | reaped (pid : Nat) (status : Nat)
  /-- `pid == 0 || err == syscall.ECHILD`: no more children to reap. -/
  | noChild
  /-- any other error from `Wait4`. -/
  | waitError (msg : String)
deriving DecidableEq

/-- State touched by the reaper: the pid table, the delivery queues, and the
log streams the reaper writes (`Reaped process`, `Reaped zombie process`,
`Wait4 got error`), plus a count of processed wake notifications. -/
structure ReaperState where
  /-- `childPidTable`: pid → queue id, keys unique. -/
  table : List (Nat × Nat)
  /-- contents of each delivery channel, by queue id. -/
  queues : List (Nat × List Nat)
  /-- pids for which the `Reaped process %d` log line ran (err == nil cases). -/
  reapedPids : List Nat
  /-- pids logged as adopted zombies (not in the table). -/
  zombieLogs : List Nat
  /-- messages logged from `Wait4` errors other than ECHILD. -/
  errorLogs : List String
  /-- number of SIGCHLD wake notifications consumed by the outer loop. -/
  wakes : Nat
deriving DecidableEq

/-- Append a status to queue `q` (the buffered channel send `statusChan <- status`). -/
def pushStatus (q : Nat) (st : Nat) : List (Nat × List Nat) → List (Nat × List Nat)
  | [] => [(q, [st])]
  | (q', sts) :: rest =>
      if q' = q then (q', sts ++ [st]) :: rest else (q', sts) :: pushStatus q st rest

/-- Modelled from the spec: `Register(pid) → delivery queue` — the spawner-side
registration into `childPidTable` lives outside `src/` (in the tether package's
exec handling); the spec says a record with a single-slot delivery queue is
inserted into the table under the lock. -/
def register (s : ReaperState) (pid q : Nat) : ReaperState :=
  { s with table := (pid, q) :: s.table, queues := (q, []) :: s.queues }

/-- Body of the reaper's inner loop for one non-terminator `Wait4` result
(part_001 lines 101-121).  On `err == nil`: log the reap, look the pid up in
`childPidTable` under the mutex; if present, send the status into its buffered
channel; if absent, log the adopted zombie.  The table entry is left in place —
the source contains no `delete(childPidTable, pid)`.  On any other error: log
and continue. -/
def reapStep (s : ReaperState) : WaitResult → ReaperState
  | WaitResult.reaped pid st =>
      let s1 := { s with reapedPids := s.reapedPids ++ [pid] }
      match s1.table.lookup pid with
      | some q => { s1 with queues := pushStatus q st s1.queues }
      | none => { s1 with zombieLogs := s1.zombieLogs ++ [pid] }
  | WaitResult.waitError e => { s with errorLogs := s.errorLogs ++ [e] }
  | WaitResult.noChild => s

/-- The reaper's inner drain loop (part_001 lines 94-122): call `Wait4`
repeatedly, breaking as soon as `pid == 0 || err == ECHILD`; every other
result is handled by `reapStep` and the loop continues.  The oracle list
holds the successive `Wait4` results the kernel would return. -/
def drain : ReaperState → List WaitResult → ReaperState
  | s, [] => s
  | s, WaitResult.noChild :: _ => s
  | s, WaitResult.reaped pid st :: rest => drain (reapStep s (WaitResult.reaped pid st)) rest
  | s, WaitResult.waitError e :: rest => drain (reapStep s (WaitResult.waitError e)) rest

/-- The reaper's outer loop (part_001 lines 90-123): `for _ = range incoming`
over SIGCHLD wake notifications; each wake runs one drain to completion.  Each
element of `ws` is the `Wait4` oracle for one wake. -/
def reaperLoop : ReaperState → List (List WaitResult) → ReaperState
  | s, [] => s
  | s, w :: ws => reaperLoop (drain { s with wakes := s.wakes + 1 } w) ws

/-- The pids carried by the `err == nil` results of a `Wait4` oracle. -/
def terminatedPids : List WaitResult → List Nat
  | [] => []
  | WaitResult.reaped pid _ :: rest => pid :: terminatedPids rest
  | WaitResult.noChild :: rest => terminatedPids rest
  | WaitResult.waitError _ :: rest => terminatedPids rest

lemma reapStep_reapedPids (s : ReaperState) (r : WaitResult) :
    (reapStep s r).reapedPids = s.reapedPids ++ terminatedPids [r] := by
  cases r with
  | reaped pid st =>
      simp only [reapStep, terminatedPids]
      cases h : List.lookup pid s.table <;> simp
  | noChild => simp [reapStep, terminatedPids]
  | waitError e => simp [reapStep, terminatedPids]

lemma foldl_reapStep_reapedPids (l : List WaitResult) (s : ReaperState) :
    (List.foldl reapStep s l).reapedPids = s.reapedPids ++ terminatedPids l := by
  induction l generalizing s with
  | nil => simp [terminatedPids]
  | cons r rest ih =>
      rw [List.foldl_cons, ih, reapStep_reapedPids]
      cases r <;> simp [terminatedPids]

lemma drain_eq_foldl (pre post : List WaitResult) (s : ReaperState)
    (h : WaitResult.noChild ∉ pre) :
    drain s (pre ++ WaitResult.noChild :: post) = List.foldl reapStep s pre := by
  induction pre generalizing s with
  | nil => simp [drain]
  | cons r rest ih =>
      have hr : r ≠ WaitResult.noChild := fun he => h (he ▸ List.mem_cons_self r rest)
      have hrest : WaitResult.noChild ∉ rest := fun hm => h (List.mem_cons_of_mem r hm)
      cases r with
      | reaped pid st => simpa [drain] using ih (reapStep s (WaitResult.reaped pid st)) hrest
      | noChild => exact absurd rfl hr
      | waitError e => simpa [drain] using ih (reapStep s (WaitResult.waitError e)) hrest

/-- `C1`: a pid registered in `childPidTable` and then reaped has its status
delivered exactly once into its delivery queue; but against the claim, the
source never removes the table entry.  Concretely: register pid 5 with queue 0
in the empty state, then run one wake whose `Wait4` oracle reaps pid 5 with
status 0 and then reports no more children.  Queue 0 receives exactly the one
status, yet pid 5 is still mapped in the table afterwards, so a later OS reuse
of pid 5 would be delivered to this stale registration. -/
theorem c1_reap_delivers_once_but_never_removes_entry :
    (drain (register ⟨[], [], [], [], [], 0⟩ 5 0)
        [WaitResult.reaped 5 0, WaitResult.noChild]).queues.lookup 0 = some [0] ∧
    (drain (register ⟨[], [], [], [], [], 0⟩ 5 0)
        [WaitResult.reaped 5 0, WaitResult.noChild]).table.lookup 5 = some 0 := by
  decide

/-- `C4`: on a single wake, the reaper drains every terminated child: for any
`Wait4` oracle consisting of results `pre` (none of which is the no-more-children
condition) followed by a no-more-children report, the drain loop processes all
of `pre` — it equals the fold of the per-result step over `pre` and the
`Reaped process` log records exactly the pids of all `err == nil` results in
`pre`, however many terminations the OS coalesced into the single wake. -/
theorem c4_single_wake_drains_all_children (s : ReaperState)
    (pre post : List WaitResult) (h : WaitResult.noChild ∉ pre) :
    drain s (pre ++ WaitResult.noChild :: post) = List.foldl reapStep s pre ∧
    (drain s (pre ++ WaitResult.noChild :: post)).reapedPids =
      s.reapedPids ++ terminatedPids pre := by
  refine ⟨drain_eq_foldl pre post s h, ?_⟩
  rw [drain_eq_foldl pre post s h, foldl_reapStep_reapedPids]

/-- Witness for `C4` at a concrete coalesced wake: three children (pids 3, 4, 9)
terminate before a single SIGCHLD wake whose oracle also contains one transient
`Wait4` error; all three are reaped from the one wake. -/
theorem c4_witness :
    (WaitResult.noChild ∉
      [WaitResult.reaped 3 7, WaitResult.waitError "EINTR",
       WaitResult.reaped 4 1, WaitResult.reaped 9 0]) ∧
    (drain (register ⟨[], [], [], [], [], 0⟩ 3 0)
        ([WaitResult.reaped 3 7, WaitResult.waitError "EINTR",
          WaitResult.reaped 4 1, WaitResult.reaped 9 0] ++
          WaitResult.noChild :: [WaitResult.reaped 11 2])).reapedPids =
      (register ⟨[], [], [], [], [], 0⟩ 3 0).reapedPids ++
        terminatedPids
          [WaitResult.reaped 3 7, WaitResult.waitError "EINTR",
           WaitResult.reaped 4 1, WaitResult.reaped 9 0] :=
  ⟨by decide,
   (c4_single_wake_drains_all_children (register ⟨[], [], [], [], [], 0⟩ 3 0)
      [WaitResult.reaped 3 7, WaitResult.waitError "EINTR",
       WaitResult.reaped 4 1, WaitResult.reaped 9 0]
      [WaitResult.reaped 11 2] (by decide)).2⟩

/-! ## Direct-mode lifecycle (src/unnamed/part_001, `main`, lines 126-209)

`main` runs a boot sequence (mknod urandom, open urandom, load the signing key,
mknod ttyS0, conditionally start the reaper) and then an infinite loop: block
on SIGHUP, open ttyS0, make a raw connection, read the identity file, perform
the handshake, run the blocking session layer, close the tty, repeat.  Each
failure branch in the source does `log` + `return` (or `log.Fatalf`), leaving
`main` and thereby exiting the process. -/

/-- Observable events of the direct-mode `main`. -/
inductive Ev where
  /-- `syscall.Mknod("/.tether/urandom", ...)` succeeded. -/
  | mknodUrandom
  /-- `os.Open("/.tether/urandom")` succeeded and replaced `rand.Reader`. -/
  | openUrandom
  /-- `privateKey(tetherKey)` parsed the signing key. -/
  | keyLoaded
  /-- `syscall.Mknod("/.tether/ttyS0", ...)` succeeded. -/
  | mknodTty
  /-- `go childReaper()` was launched (only when `os.Getpid() == 1`). -/
  | reaperStart
  /-- the loop blocked on `<-hup` and received a SIGHUP. -/
  | waitHup
  /-- `os.OpenFile("/.tether/ttyS0", ...)` succeeded. -/
  | openTty
  /-- `serial.NewFileConn(f)` succeeded. -/
  | newFileConn
  /-- `id()` read `/.tether/docker-id` and the handler was built. -/
  | idRead
  /-- `serial.HandshakeServer(conn, 10s)` ran (its outcome is not checked). -/
  | handshake
  /-- `tether.StartTether(conn, private, &handler)` ran to completion. -/
  | startSession
  /-- `f.Close()` ran. -/
  | closeTty
  /-- a `log.Printf`/`log.Fatalf` error line. -/
  | log (msg : String)
  /-- `main` returned (or `log.Fatalf` fired): the process exited. -/
  | processExit
deriving DecidableEq

/-- Outcomes of the external calls made by one iteration of the HUP loop.
`ok` stands for an iteration in which the tty open, the raw-connection
creation and the identity-file read all succeed and the session layer runs
to completion. -/
inductive CycleOutcome where
  /-- `os.OpenFile("/.tether/ttyS0", ...)` fails. -/
  | openFail
  /-- `serial.NewFileConn(f)` fails. -/
  | connFail
  /-- `ioutil.ReadFile("/.tether-init/docker-id")` fails (`log.Fatalf`). -/
  | idFail
  /-- everything in this iteration succeeds. -/
  | ok
deriving DecidableEq

/-- Outcomes of the boot-sequence externals plus the process id `main` sees. -/
structure BootEnv where
  mknodUrandomOk : Bool
  openUrandomOk : Bool
  keyLoadOk : Bool
  mknodTtyOk : Bool
  getpid : Nat
deriving DecidableEq

/-- One full successful HUP cycle (part_001 lines 172-207). -/
def fullCycle : List Ev :=
  [Ev.waitHup, Ev.openTty, Ev.newFileConn, Ev.idRead, Ev.handshake,
   Ev.startSession, Ev.closeTty]

/-- The `for { <-hup ... }` loop of part_001 lines 171-208, driven by the
outcomes of the successive signals.  `openFail` and `connFail` do `log` +
`return` (on `connFail` the deferred `f.Close()` runs on the way out);
`idFail` is `log.Fatalf` inside `id()`, which exits without running deferred
calls; an `ok` iteration runs the whole cycle and loops. -/
def runCycles : List CycleOutcome → List Ev
  | [] => []
  | CycleOutcome.openFail :: _ =>
      [Ev.waitHup, Ev.log "failed to open com1 for ssh server", Ev.processExit]
  | CycleOutcome.connFail :: _ =>
      [Ev.waitHup, Ev.openTty,
       Ev.log "failed to create raw connection from ttyS0 file handle",
       Ev.closeTty, Ev.processExit]
  | CycleOutcome.idFail :: _ =>
      [Ev.waitHup, Ev.openTty, Ev.newFileConn,
       Ev.log "failed to read ID from file", Ev.processExit]
  | CycleOutcome.ok :: rest => fullCycle ++ runCycles rest

/-- The direct-mode `main` (part_001 lines 126-209): boot sequence in source
order — mknod urandom (line 137), open urandom (line 142), `privateKey`
(line 148), mknod ttyS0 (line 155), `go childReaper()` iff `os.Getpid() == 1`
(lines 161-164) — then the HUP loop.  Every boot failure logs and exits the
process. -/
def tetherMain (env : BootEnv) (sigs : List CycleOutcome) : List Ev :=
  if env.mknodUrandomOk then
    Ev.mknodUrandom ::
      (if env.openUrandomOk then
        Ev.openUrandom ::
          (if env.keyLoadOk then
            Ev.keyLoaded ::
              (if env.mknodTtyOk then
                Ev.mknodTty ::
                  ((if env.getpid = 1 then [Ev.reaperStart] else []) ++ runCycles sigs)
              else [Ev.log "failed to create device for com1", Ev.processExit])
          else [Ev.log "failed to load private key", Ev.processExit])
      else [Ev.log "failed to open new urandom device", Ev.processExit])
  else [Ev.log "failed to create urandom access", Ev.processExit]

/-! ## Proxy-mode startup (src/bootstrap/targets/proxy/tether/tether.go,
`main`, lines 163-201)

The proxy `main` loads the signing key (`log.Fatalf` on failure), determines
the external IP, resolves the listen address, listens on port 2377 and then
accepts connections forever, spawning `handleConnectionFromGuest` per
accepted connection.  `externalIP`/resolve/listen failures are only
`log.Println`ed and execution continues (a failed listen leaves a nil
listener, crashing at the first `AcceptTCP`). -/

/-- Observable events of the proxy-mode `main`. -/
inductive PEv where
  | keyLoaded
  | listen
  /-- `ln.AcceptTCP()` returned an error; the loop logs and continues. -/
  | acceptErr
  /-- `go handleConnectionFromGuest(conn)` spawned for accepted connection `c`. -/
  | spawnHandler (c : Nat)
  | log (msg : String)
  /-- `log.Fatalf` fired: process exit. -/
  | processExit
  /-- nil-listener dereference at `ln.AcceptTCP()` after a failed listen. -/
  | crash
deriving DecidableEq

/-- Outcomes of the proxy `main`'s external calls. -/
structure ProxyEnv where
  keyLoadOk : Bool
  externalIPOk : Bool
  resolveOk : Bool
  listenOk : Bool
deriving DecidableEq

/-- The accept loop (tether.go lines 192-200): accept errors are logged and the
loop continues; each accepted connection is handed to a handler goroutine. -/
def acceptLoop : List (Option Nat) → List PEv
  | [] => []
  | none :: rest => PEv.acceptErr :: acceptLoop rest
  | some c :: rest => PEv.spawnHandler c :: acceptLoop rest

/-- The proxy-mode `main` (tether.go lines 163-201).  Each element of
`accepts` is one `AcceptTCP` result: `some c` an accepted connection,
`none` an accept error. -/
def proxyMain (env : ProxyEnv) (accepts : List (Option Nat)) : List PEv :=
  if env.keyLoadOk then
    PEv.keyLoaded ::
      ((if env.externalIPOk then [] else [PEv.log "unable to get external IP address"]) ++
       (if env.resolveOk then [] else [PEv.log "unable to construct TCP address to listen"]) ++
       (if env.listenOk then PEv.listen :: acceptLoop accepts
        else [PEv.log "unable listen", PEv.crash]))
  else [PEv.log "failed to load private key", PEv.processExit]

lemma reaperStart_not_mem_runCycles (sigs : List CycleOutcome) :
    Ev.reaperStart ∉ runCycles sigs := by
  induction sigs with
  | nil => simp [runCycles]
  | cons s rest ih => cases s <;> simp [runCycles, fullCycle, ih]

lemma reapStep_wakes (s : ReaperState) (r : WaitResult) :
    (reapStep s r).wakes = s.wakes := by
  cases r with
  | reaped pid st =>
      simp only [reapStep]
      cases h : List.lookup pid s.table <;> simp [h]
  | noChild => rfl
  | waitError e => rfl

lemma drain_wakes (l : List WaitResult) (s : ReaperState) :
    (drain s l).wakes = s.wakes := by
  induction l generalizing s with
  | nil => rfl
  | cons r rest ih =>
      cases r with
      | noChild => rfl
      | reaped pid st => simp only [drain, ih, reapStep_wakes]
      | waitError e => simp only [drain, ih, reapStep_wakes]

lemma reaperLoop_wakes (ws : List (List WaitResult)) (s : ReaperState) :
    (reaperLoop s ws).wakes = s.wakes + ws.length := by
  induction ws generalizing s with
  | nil => simp [reaperLoop]
  | cons w rest ih =>
      simp only [reaperLoop, ih, drain_wakes, List.length_cons]
      omega

/-- `C2` counterexample: with a successful boot and a first HUP cycle whose
`os.OpenFile` of ttyS0 fails, `main` logs the failure and returns — the
process exits.  The second, would-be-successful signal is never processed
(only one `<-hup` wait ever happens), contradicting the claim that the
controller returns to Idle and retries while the process never exits on a
device-open failure. -/
theorem c2_counterexample_device_failure_exits :
    tetherMain ⟨true, true, true, true, 1⟩ [CycleOutcome.openFail, CycleOutcome.ok] =
      [Ev.mknodUrandom, Ev.openUrandom, Ev.keyLoaded, Ev.mknodTty, Ev.reaperStart,
       Ev.waitHup, Ev.log "failed to open com1 for ssh server", Ev.processExit] ∧
    Ev.processExit ∈
      tetherMain ⟨true, true, true, true, 1⟩ [CycleOutcome.openFail, CycleOutcome.ok] ∧
    (tetherMain ⟨true, true, true, true, 1⟩
        [CycleOutcome.openFail, CycleOutcome.ok]).count Ev.waitHup = 1 := by
  refine ⟨rfl, by simp [tetherMain, runCycles], by rfl⟩

/-- `C2` (amended): a failure to create the control-channel device at boot, or
to open it on a signal, is logged and `main` returns, exiting the whole
process: the controller does not go back to the Idle wait and no subsequent
reconfiguration signal is processed. -/
theorem c2_amended_device_failure_logged_then_exit (env : BootEnv)
    (sigs rest : List CycleOutcome)
    (h1 : env.mknodUrandomOk = true) (h2 : env.openUrandomOk = true)
    (h3 : env.keyLoadOk = true) (h4 : env.mknodTtyOk = false) :
    tetherMain env sigs =
      [Ev.mknodUrandom, Ev.openUrandom, Ev.keyLoaded,
       Ev.log "failed to create device for com1", Ev.processExit] ∧
    runCycles (CycleOutcome.openFail :: rest) =
      [Ev.waitHup, Ev.log "failed to open com1 for ssh server", Ev.processExit] := by
  constructor
  · simp [tetherMain, h1, h2, h3, h4]
  · rfl

/-- Witness for the amended `C2` at a concrete boot environment whose ttyS0
`Mknod` fails, and a concrete signal list whose first cycle's open fails. -/
theorem c2_amended_witness :
    tetherMain ⟨true, true, true, false, 1⟩ [CycleOutcome.ok] =
      [Ev.mknodUrandom, Ev.openUrandom, Ev.keyLoaded,
       Ev.log "failed to create device for com1", Ev.processExit] ∧
    runCycles (CycleOutcome.openFail :: [CycleOutcome.ok]) =
      [Ev.waitHup, Ev.log "failed to open com1 for ssh server", Ev.processExit] :=
  c2_amended_device_failure_logged_then_exit ⟨true, true, true, false, 1⟩
    [CycleOutcome.ok] [CycleOutcome.ok] rfl rfl rfl rfl

/-- `C3` counterexample: in a run whose process id is 2 (not the init
process), `main` never starts the reaper task, against the claim that every
run starts exactly one reaper at startup. -/
theorem c3_counterexample_no_reaper_when_not_pid1 :
    Ev.reaperStart ∉ tetherMain ⟨true, true, true, true, 2⟩ [CycleOutcome.ok] := by
  simp [tetherMain, runCycles, fullCycle]

/-- `C3` (amended): only when the process runs as pid 1 is the reaper task
started, and then exactly one is started at startup; the reaper's outer loop
consumes every wake notification delivered while the process runs (it never
returns early), and a `Wait4` error other than the no-more-children condition
is logged into the error log and the drain loop continues with the next
result. -/
theorem c3_amended_single_reaper_loop_continues :
    (∀ (env : BootEnv) (sigs : List CycleOutcome),
        env.mknodUrandomOk = true → env.openUrandomOk = true →
        env.keyLoadOk = true → env.mknodTtyOk = true → env.getpid = 1 →
        (tetherMain env sigs).count Ev.reaperStart = 1) ∧
    (∀ (s : ReaperState) (ws : List (List WaitResult)),
        (reaperLoop s ws).wakes = s.wakes + ws.length) ∧
    (∀ (s : ReaperState) (e : String) (rest : List WaitResult),
        drain s (WaitResult.waitError e :: rest) =
          drain { s with errorLogs := s.errorLogs ++ [e] } rest) := by
  refine ⟨?_, fun s ws => reaperLoop_wakes ws s, fun s e rest => rfl⟩
  intro env sigs h1 h2 h3 h4 h5
  have h0 : (runCycles sigs).count Ev.reaperStart = 0 :=
    List.count_eq_zero.2 (reaperStart_not_mem_runCycles sigs)
  simp [tetherMain, h1, h2, h3, h4, h5, List.count_cons, List.count_append, h0]

/-- Witness for the amended `C3`: a concrete pid-1 run starts one reaper; a
concrete two-wake schedule is fully consumed; a concrete `Wait4` error is
logged and the loop continues. -/
theorem c3_amended_witness :
    (tetherMain ⟨true, true, true, true, 1⟩ [CycleOutcome.ok]).count Ev.reaperStart = 1 ∧
    (reaperLoop ⟨[], [], [], [], [], 0⟩ [[WaitResult.noChild], []]).wakes = 0 + 2 ∧
    drain ⟨[], [], [], [], [], 0⟩ (WaitResult.waitError "EIO" :: []) =
      drain ⟨[], [], [], [], [] ++ ["EIO"], 0⟩ [] :=
  ⟨c3_amended_single_reaper_loop_continues.1 ⟨true, true, true, true, 1⟩
      [CycleOutcome.ok] rfl rfl rfl rfl rfl,
   c3_amended_single_reaper_loop_continues.2.1 ⟨[], [], [], [], [], 0⟩
      [[WaitResult.noChild], []],
   c3_amended_single_reaper_loop_continues.2.2 ⟨[], [], [], [], [], 0⟩ "EIO" []⟩

/-- `C6`: the lifecycle controller is re-armable: two consecutive signals each
followed by a fully successful cycle produce two complete
Provisioning-to-Active traces (device open, raw connection, identity read,
handshake, blocking session, close) before the controller waits again, and in
general `n` successful signals produce `n` full cycles, for the process's
whole lifetime. -/
theorem c6_controller_rearmable :
    (∀ rest : List CycleOutcome,
        runCycles (CycleOutcome.ok :: CycleOutcome.ok :: rest) =
          fullCycle ++ fullCycle ++ runCycles rest) ∧
    (∀ n : Nat, runCycles (List.replicate n CycleOutcome.ok) =
        (List.replicate n fullCycle).flatten) := by
  refine ⟨fun rest => by simp [runCycles], fun n => ?_⟩
  induction n with
  | zero => rfl
  | succ k ih => simp [List.replicate_succ, runCycles, ih]

/-- `C7` counterexample: in a direct-mode run whose key load fails, the
urandom device node has already been created (and the process then exits), so
it is not true that no device node ever exists in a run with a failed key
load. -/
theorem c7_counterexample_urandom_node_precedes_key_load :
    Ev.mknodUrandom ∈ tetherMain ⟨true, true, false, true, 1⟩ [] ∧
    Ev.log "failed to load private key" ∈ tetherMain ⟨true, true, false, true, 1⟩ [] ∧
    Ev.processExit ∈ tetherMain ⟨true, true, false, true, 1⟩ [] := by
  refine ⟨by simp [tetherMain], by simp [tetherMain], by simp [tetherMain]⟩

/-- `C7` (amended): a missing or unparseable signing key aborts the process
before the serial-console device node is created, before the reaper task is
started, before any signal is waited on, and (in proxy mode) before the
listener is started or any connection handler is spawned; however, in direct
mode the urandom device node is created before the key is loaded, so that one
device node may already exist in such a run. -/
theorem c7_amended_key_failure_aborts_early
    (env : BootEnv) (sigs : List CycleOutcome)
    (penv : ProxyEnv) (accepts : List (Option Nat)) (c : Nat)
    (hd : env.keyLoadOk = false) (hp : penv.keyLoadOk = false) :
    Ev.mknodTty ∉ tetherMain env sigs ∧
    Ev.reaperStart ∉ tetherMain env sigs ∧
    Ev.waitHup ∉ tetherMain env sigs ∧
    PEv.listen ∉ proxyMain penv accepts ∧
    PEv.spawnHandler c ∉ proxyMain penv accepts := by
  cases env with
  | mk b1 b2 b3 b4 p =>
      cases penv with
      | mk q1 q2 q3 q4 =>
          simp only at hd hp
          subst hd
          subst hp
          cases b1 <;> cases b2 <;> simp [tetherMain, proxyMain]

/-- Witness for the amended `C7` at a concrete failed-key run (direct mode
with pid 1 and a pending signal; proxy mode with one pending accept). -/
theorem c7_amended_witness :
    Ev.mknodTty ∉ tetherMain ⟨true, true, false, true, 1⟩ [CycleOutcome.ok] ∧
    Ev.reaperStart ∉ tetherMain ⟨true, true, false, true, 1⟩ [CycleOutcome.ok] ∧
    Ev.waitHup ∉ tetherMain ⟨true, true, false, true, 1⟩ [CycleOutcome.ok] ∧
    PEv.listen ∉ proxyMain ⟨false, true, true, true⟩ [some 3] ∧
    PEv.spawnHandler 3 ∉ proxyMain ⟨false, true, true, true⟩ [some 3] :=
  c7_amended_key_failure_aborts_early ⟨true, true, false, true, 1⟩ [CycleOutcome.ok]
    ⟨false, true, true, true⟩ [some 3] 3 rfl rfl

/-! ## Identity file read (src/unnamed/part_001, `id`, lines 72-84) -/

/-- `id()` (part_001 lines 72-84): read `/.tether-init/docker-id` and, on a
successful read, truncate to the first 64 bytes when the contents are longer
than 64 bytes, otherwise return the contents unmodified.  The bytes read are
the function's input; the read-failure branch is `log.Fatalf` and never
returns a value. -/
def id (contents : List Nat) : List Nat :=
  if contents.length > 64 then contents.take 64 else contents

/-- `C9`: for every readable identity file, the read returns exactly the first
64 bytes when the file is longer than 64 bytes, and the contents unmodified
when the file is 64 bytes or shorter. -/
theorem c9_identity_truncation (contents : List Nat) :
    (64 < contents.length → id contents = contents.take 64) ∧
    (contents.length ≤ 64 → id contents = contents) := by
  constructor
  · intro h
    unfold id
    rw [if_pos h]
  · intro h
    unfold id
    rw [if_neg (by omega)]

/-- Witness for `C9`: a 65-byte file is truncated to its first 64 bytes and a
3-byte file is returned unmodified. -/
theorem c9_witness :
    id (List.replicate 65 7) = (List.replicate 65 7).take 64 ∧
    id [1, 2, 3] = [1, 2, 3] :=
  ⟨(c9_identity_truncation (List.replicate 65 7)).1 (by decide),
   (c9_identity_truncation [1, 2, 3]).2 (by decide)⟩

/-! ## Console-driven connection handling
(src/bootstrap/targets/proxy/tether/tether.go, `handleConnectionFromGuest`,
lines 116-161)

Per accepted guest connection the handler builds a `GlobalHandler` with
`allowExec: true`, dials the local daemon on `localhost:2377`, runs the
transport handshake (its outcome is discarded — the call at line 135 is a bare
statement), synchronizes the console, captures the container identity
(`output, _ :=` discards the capture error), runs `C:\AUTOEXEC.BAT`, then sets
the magic prompt, and finally hands the daemon stream to the session layer.
The console-command primitives (`discardUntilPrompt`, `cmdCombinedOutput`,
`cmdStart`) are defined outside `src/` and appear here as external calls whose
outcomes come from the environment. -/

/-- tether.go line 44: the sentinel ("magic") prompt. -/
def magicPrompt : String := "Exiting DOS "

/-- The identity-capture console command (tether.go line 139). -/
def dockeridCmd : String := "type C:\\TETHER\\DOCKERID"

/-- The guest startup command (tether.go line 144). -/
def autoexecCmd : String := "C:\\AUTOEXEC.BAT"

/-- The sentinel-setting command, `fmt.Sprintf` of the magic prompt
(tether.go line 153). -/
def setPromptCmd : String := "SET PROMPT=" ++ magicPrompt ++ "$g"

/-- Per-connection handler state (tether.go lines 25-30). -/
structure GlobalHandler where
  id : String
  dosconn : Nat
  allowExec : Bool
deriving DecidableEq

/-- Modelled from the spec: `StripCommandOutput` is defined outside `src/` (in
the tether package); per the spec the captured raw output has its trailing
line-ending and padding characters stripped before use as the identity. -/
def isTrailingGarbage (c : Char) : Bool :=
  c = '\r' || c = '\n' || c = ' ' || c = '\x00'

/-- Modelled from the spec: strip trailing line-ending and padding characters
from captured console output. -/
def StripCommandOutput (s : String) : String :=
  ⟨(s.data.reverse.dropWhile isTrailingGarbage).reverse⟩

/-- Outcomes of the external calls made during one accepted connection. -/
structure ConnEnv where
  /-- `net.Dial("tcp", "localhost:2377")` succeeds. -/
  dialOk : Bool
  /-- outcome of `serial.HandshakeServer(dconn, 10s)` — discarded by the
  source (bare call at tether.go line 135). -/
  handshakeOk : Bool
  /-- raw output captured by `cmdCombinedOutput` for the identity command. -/
  captureOut : String
  /-- error outcome of that capture — discarded by the source
  (`output, _ :=`, tether.go line 139). -/
  captureOk : Bool
  /-- `cmdStart` of the startup script returns nil. -/
  autoexecOk : Bool
  /-- `cmdStart` of the sentinel-setting command returns nil. -/
  setPromptOk : Bool
deriving DecidableEq

/-- Observable events of one accepted guest connection. -/
inductive ConnEv where
  /-- `net.Dial` to the local daemon succeeded. -/
  | dialDaemon
  /-- `serial.HandshakeServer(dconn, 10s)` ran. -/
  | handshake
  /-- `handler.discardUntilPrompt()` ran (console synchronization). -/
  | discardUntilPrompt
  /-- `handler.cmdCombinedOutput(cmd)` ran. -/
  | capture (cmd : String)
  /-- `handler.cmdStart(cmd)` ran. -/
  | cmdStart (cmd : String)
  /-- `tether.StartTether(dconn, private, &handler)` ran with this handler. -/
  | startSession (h : GlobalHandler)
  /-- deferred `dconn.Close()` ran. -/
  | closeDaemon
  /-- deferred `guestConn.Close()` ran. -/
  | closeGuest
  /-- a `log.Printf` error line. -/
  | log (msg : String)
deriving DecidableEq

/-- `handleConnectionFromGuest` (tether.go lines 116-161) as a trace of
events.  Failure of the dial, of the startup-script command, or of the
sentinel-setting command logs and returns (running the deferred closes);
the handshake outcome and the capture error are not inspected. -/
def handleConnectionFromGuest (guestConn : Nat) (env : ConnEnv) : List ConnEv :=
  if env.dialOk then
    ConnEv.dialDaemon :: ConnEv.handshake :: ConnEv.discardUntilPrompt ::
      ConnEv.capture dockeridCmd :: ConnEv.cmdStart autoexecCmd ::
        (if env.autoexecOk then
          ConnEv.cmdStart setPromptCmd ::
            (if env.setPromptOk then
              [ConnEv.startSession
                  { id := StripCommandOutput env.captureOut, dosconn := guestConn,
                    allowExec := true },
               ConnEv.closeDaemon, ConnEv.closeGuest]
            else
              [ConnEv.log "error setting initial prompt",
               ConnEv.closeDaemon, ConnEv.closeGuest])
        else
          [ConnEv.log "error running AUTOEXEC.BAT",
           ConnEv.closeDaemon, ConnEv.closeGuest])
  else
    [ConnEv.log "failed to create loopback connection to daemon", ConnEv.closeGuest]

/-- Whether an event is a session-layer invocation. -/
def isStartSession : ConnEv → Bool
  | ConnEv.startSession _ => true
  | _ => false

/-- Whether an event is a logged error line. -/
def isErrorLog : ConnEv → Bool
  | ConnEv.log _ => true
  | _ => false

/-- The console commands issued via `cmdStart`, in order. -/
def issuedConsoleCommands (guestConn : Nat) (env : ConnEnv) : List String :=
  (handleConnectionFromGuest guestConn env).filterMap fun e =>
    match e with
    | ConnEv.cmdStart c => some c
    | _ => none

/-- `C5`: in every console-driven bootstrap, whenever the sentinel-setting
command is issued at all, the sequence of issued console commands is exactly
the startup script followed by the sentinel-setting command — the sentinel
prompt is set strictly after the guest startup command, never before it. -/
theorem c5_sentinel_set_strictly_after_startup (g : Nat) (env : ConnEnv)
    (h : setPromptCmd ∈ issuedConsoleCommands g env) :
    issuedConsoleCommands g env = [autoexecCmd, setPromptCmd] := by
  cases env with
  | mk d hs co ck a sp =>
      cases d <;> cases a <;> cases sp <;>
        simp_all [issuedConsoleCommands, handleConnectionFromGuest] <;>
        exact absurd h (by decide)

/-- Witness for `C5` at a fully successful concrete bootstrap. -/
theorem c5_witness :
    setPromptCmd ∈ issuedConsoleCommands 1 ⟨true, true, "abc", true, true, true⟩ ∧
    issuedConsoleCommands 1 ⟨true, true, "abc", true, true, true⟩ =
      [autoexecCmd, setPromptCmd] :=
  ⟨by decide,
   c5_sentinel_set_strictly_after_startup 1 ⟨true, true, "abc", true, true, true⟩
     (by decide)⟩

lemma acceptLoop_spawns (accepts : List (Option Nat)) (c : Nat)
    (h : some c ∈ accepts) : PEv.spawnHandler c ∈ acceptLoop accepts := by
  induction accepts with
  | nil => cases h
  | cons a rest ih =>
      cases a with
      | none =>
          have h2 : some c ∈ rest := by simpa using h
          exact List.mem_cons_of_mem _ (ih h2)
      | some x =>
          rcases List.mem_cons.1 h with h1 | h2
          · injection h1 with hcx
            subst hcx
            exact List.mem_cons_self _ _
          · exact List.mem_cons_of_mem _ (ih h2)

/-- `C8` counterexample: on an accepted connection whose transport handshake
fails (everything else succeeding), the handler still invokes the session
layer and logs no error — the attempt is not abandoned, against the claim
that a failure of any setup stage is logged and abandoned before the session
layer is invoked. -/
theorem c8_counterexample_handshake_failure_not_abandoned :
    (handleConnectionFromGuest 7 ⟨true, false, "ABC", true, true, true⟩).any
        isStartSession = true ∧
    (handleConnectionFromGuest 7 ⟨true, false, "ABC", true, true, true⟩).any
        isErrorLog = false := by
  decide

/-- `C8` (amended): per accepted connection, a dial failure, a failure of the
startup-script command, or a failure of the sentinel-setting command is logged
and that attempt's resources are released before the session layer is invoked;
in any such failed attempt no session is started.  The handshake outcome and
the identity-capture error, however, are discarded by the handler and cannot
abandon the attempt (the trace is independent of them).  The accept loop keeps
serving: every accepted connection gets a handler regardless of other
outcomes. -/
theorem c8_amended_per_stage_failure_handling :
    (∀ (g : Nat) (env : ConnEnv), env.dialOk = false →
        handleConnectionFromGuest g env =
          [ConnEv.log "failed to create loopback connection to daemon",
           ConnEv.closeGuest]) ∧
    (∀ (g : Nat) (env : ConnEnv), env.dialOk = true → env.autoexecOk = false →
        handleConnectionFromGuest g env =
          [ConnEv.dialDaemon, ConnEv.handshake, ConnEv.discardUntilPrompt,
           ConnEv.capture dockeridCmd, ConnEv.cmdStart autoexecCmd,
           ConnEv.log "error running AUTOEXEC.BAT",
           ConnEv.closeDaemon, ConnEv.closeGuest]) ∧
    (∀ (g : Nat) (env : ConnEnv), env.dialOk = true → env.autoexecOk = true →
        env.setPromptOk = false →
        handleConnectionFromGuest g env =
          [ConnEv.dialDaemon, ConnEv.handshake, ConnEv.discardUntilPrompt,
           ConnEv.capture dockeridCmd, ConnEv.cmdStart autoexecCmd,
           ConnEv.cmdStart setPromptCmd,
           ConnEv.log "error setting initial prompt",
           ConnEv.closeDaemon, ConnEv.closeGuest]) ∧
    (∀ (g : Nat) (env : ConnEnv),
        env.dialOk = false ∨ env.autoexecOk = false ∨ env.setPromptOk = false →
        (handleConnectionFromGuest g env).any isStartSession = false) ∧
    (∀ (g : Nat) (env : ConnEnv) (b b' : Bool),
        handleConnectionFromGuest g { env with handshakeOk := b, captureOk := b' } =
          handleConnectionFromGuest g env) ∧
    (∀ (accepts : List (Option Nat)) (c : Nat),
        some c ∈ accepts → PEv.spawnHandler c ∈ acceptLoop accepts) := by
  refine ⟨?_, ?_, ?_, ?_, fun g env b b' => rfl, acceptLoop_spawns⟩
  · intro g env h
    simp [handleConnectionFromGuest, h]
  · intro g env h1 h2
    simp [handleConnectionFromGuest, h1, h2]
  · intro g env h1 h2 h3
    simp [handleConnectionFromGuest, h1, h2, h3]
  · intro g env h
    cases env with
    | mk d hs co ck a sp =>
        cases d <;> cases a <;> cases sp <;>
          simp_all [handleConnectionFromGuest, isStartSession]

/-- Witness for the amended `C8` at concrete connection attempts: a failed
dial, a failed startup script, a failed sentinel command, the independence of
the trace from the discarded handshake/capture outcomes, and an accept loop
that serves a connection after an accept error. -/
theorem c8_amended_witness :
    handleConnectionFromGuest 2 ⟨false, true, "x", true, true, true⟩ =
      [ConnEv.log "failed to create loopback connection to daemon",
       ConnEv.closeGuest] ∧
    handleConnectionFromGuest 2 ⟨true, true, "x", true, false, true⟩ =
      [ConnEv.dialDaemon, ConnEv.handshake, ConnEv.discardUntilPrompt,
       ConnEv.capture dockeridCmd, ConnEv.cmdStart autoexecCmd,
       ConnEv.log "error running AUTOEXEC.BAT",
       ConnEv.closeDaemon, ConnEv.closeGuest] ∧
    handleConnectionFromGuest 2 ⟨true, true, "x", true, true, false⟩ =
      [ConnEv.dialDaemon, ConnEv.handshake, ConnEv.discardUntilPrompt,
       ConnEv.capture dockeridCmd, ConnEv.cmdStart autoexecCmd,
       ConnEv.cmdStart setPromptCmd,
       ConnEv.log "error setting initial prompt",
       ConnEv.closeDaemon, ConnEv.closeGuest] ∧
    (handleConnectionFromGuest 2 ⟨true, true, "x", true, false, true⟩).any
        isStartSession = false ∧
    handleConnectionFromGuest 2
        { (⟨true, true, "x", true, true, true⟩ : ConnEnv) with
            handshakeOk := false, captureOk := false } =
      handleConnectionFromGuest 2 ⟨true, true, "x", true, true, true⟩ ∧
    PEv.spawnHandler 3 ∈ acceptLoop [none, some 3] :=
  ⟨c8_amended_per_stage_failure_handling.1 2 _ rfl,
   c8_amended_per_stage_failure_handling.2.1 2 _ rfl rfl,
   c8_amended_per_stage_failure_handling.2.2.1 2 _ rfl rfl rfl,
   c8_amended_per_stage_failure_handling.2.2.2.1 2 _ (Or.inr (Or.inl rfl)),
   c8_amended_per_stage_failure_handling.2.2.2.2.1 2 _ false false,
   c8_amended_per_stage_failure_handling.2.2.2.2.2 [none, some 3] 3 (by decide)⟩

/-- `C10`: every session the console-driven handler starts runs with the
execution-permission flag set: any handler passed to the session layer in any
connection trace has `allowExec = true` — there is no environment under which
a session starts with execution disallowed. -/
theorem c10_session_always_allows_exec (g : Nat) (env : ConnEnv)
    (h : GlobalHandler)
    (hmem : ConnEv.startSession h ∈ handleConnectionFromGuest g env) :
    h.allowExec = true := by
  cases env with
  | mk d hs co ck a sp =>
      cases d <;> cases a <;> cases sp <;>
        simp_all [handleConnectionFromGuest]

/-- Witness for `C10`: the concrete handler passed to the session layer in a
fully successful connection trace has `allowExec = true`. -/
theorem c10_witness :
    ConnEv.startSession ⟨StripCommandOutput "x", 2, true⟩ ∈
      handleConnectionFromGuest 2 ⟨true, true, "x", true, true, true⟩ ∧
    (⟨StripCommandOutput "x", 2, true⟩ : GlobalHandler).allowExec = true :=
  ⟨by decide,
   c10_session_always_allows_exec 2 ⟨true, true, "x", true, true, true⟩
     ⟨StripCommandOutput "x", 2, true⟩ (by decide)⟩

end VicTether
